import Mathlib

/-!
Verification development for the error-normalization and change fan-out core
of a Firebase admin backend.

The error normalizer is embedded from `src/middleware/errorHandler.js`: the
`FIREBASE_ERROR_CODES` table, the `formatFirebaseError`, `formatValidationError`,
`formatMongoError`, `formatJWTError` and `formatMulterError` helpers, and the
`errorHandler` Express middleware. JavaScript error objects are modelled as a
`Fault` record whose optional fields stand for possibly-undefined properties;
JavaScript truthiness (`''`, `0`, `null`/`undefined` are falsy) is modelled
explicitly, and the `TypeError` that `error.code.startsWith('auth/')` raises
when `error.code` is a truthy number is modelled by `none` from `normalizeFault`.

The change fan-out is embedded from the Socket.IO wiring in the server setup
(`socket.join('collection:' + name)`, `socket.leave(...)`,
`io.to('collection:' + id).emit('document-created', ...)`) together with the
firestore routes that publish. Socket.IO's room registry is modelled by its
documented semantics: a room is a set of sockets, `join` is idempotent,
`leave` removes the socket from the room, and a disconnecting socket leaves
all of its rooms.
-/

/-- A JSON value, as produced by `res.json` / `JSON.stringify`. Properties
whose value is `undefined` are omitted by `JSON.stringify`, so objects contain
only defined entries; `null` is a first-class value. -/
inductive Json where
  | null : Json
  | bool : Bool → Json
  | num : Int → Json
  | str : String → Json
  | arr : List Json → Json
  | obj : List (String × Json) → Json
deriving Repr

/-- A JavaScript `error.code` value: Firebase uses strings (`'auth/...'`,
`'not-found'`), MongoDB uses numbers (`11000`). -/
inductive JsCode where
  | str : String → JsCode
  | num : Int → JsCode
deriving Repr, DecidableEq

/-- JavaScript truthiness of a code value: `''` and `0` are falsy. -/
def JsCode.truthy : JsCode → Bool
  | .str s => s ≠ ""
  | .num n => n ≠ 0

/-- Truthiness of a possibly-undefined code (`undefined` is falsy). -/
def optCodeTruthy : Option JsCode → Bool
  | some c => c.truthy
  | none => false

/-- JavaScript truthiness of a JSON value. -/
def Json.truthy : Json → Bool
  | .null => false
  | .bool b => b
  | .num n => n ≠ 0
  | .str s => s ≠ ""
  | .arr _ => true
  | .obj _ => true

/-- Truthiness of a possibly-undefined JSON value. -/
def optJsonTruthy : Option Json → Bool
  | some j => j.truthy
  | none => false

/-- Truthiness of a possibly-undefined string property. -/
def optStrTruthy : Option String → Bool
  | some s => s ≠ ""
  | none => false

/-- One element of `errors.array()` from express-validator, as consumed by
`formatValidationError` (`err.param`, `err.path`, `err.msg`, `err.value`). -/
structure VErr where
  param : Option String
  path : Option String
  msg : String
  value : Option Json
deriving Repr

/-- A raw JavaScript error reaching the error boundary: the fields that
`errorHandler` and its formatters inspect. `none` stands for a missing
(`undefined`) property. `message` is a string on every `Error` instance.
`hasArrayFn` records whether `error.array` is a function (express-validator
results), and `arrayErrors` the value it returns. -/
structure Fault where
  name : Option String
  message : String
  code : Option JsCode
  errorInfoCode : Option JsCode
  isOperational : Bool
  statusCode : Option Int
  details : Option Json
  stack : Option String
  hasArrayFn : Bool
  arrayErrors : List VErr
deriving Repr

/-- Truthiness of `error.code` for a fault. -/
def Fault.codeTruthy (e : Fault) : Bool := optCodeTruthy e.code

/-- The fields of `formattedError` that the response builder reads:
`message`, `statusCode`, `code`, `details`. Produced either by one of the
formatters (then all fields are set) or taken verbatim from an operational
error. -/
structure FormattedError where
  message : String
  statusCode : Option Int
  code : Option JsCode
  details : Option Json
deriving Repr

/-- An operational error is passed through unformatted: `formattedError = error`. -/
def feOfFault (e : Fault) : FormattedError :=
  { message := e.message, statusCode := e.statusCode, code := e.code, details := e.details }

/-- The `FIREBASE_ERROR_CODES` mapping table from `errorHandler.js`,
key → (status, message). -/
def FIREBASE_ERROR_CODES : List (String × Int × String) :=
  [ ("auth/user-not-found", (404, "User not found")),
    ("auth/email-already-exists", (409, "Email already exists")),
    ("auth/invalid-email", (400, "Invalid email format")),
    ("auth/weak-password", (400, "Password is too weak")),
    ("auth/user-disabled", (403, "User account is disabled")),
    ("auth/too-many-requests", (429, "Too many requests")),
    ("auth/operation-not-allowed", (403, "Operation not allowed")),
    ("permission-denied", (403, "Permission denied")),
    ("not-found", (404, "Document not found")),
    ("already-exists", (409, "Document already exists")),
    ("failed-precondition", (412, "Failed precondition")),
    ("out-of-range", (400, "Value out of range")),
    ("unimplemented", (501, "Operation not implemented")),
    ("internal", (500, "Internal server error")),
    ("unavailable", (503, "Service temporarily unavailable")),
    ("deadline-exceeded", (504, "Request timeout")),
    ("unauthenticated", (401, "Authentication required")) ]

/-- Association-list lookup with string keys (JavaScript object indexing). -/
def assocStr {α : Type} : List (String × α) → String → Option α
  | [], _ => none
  | (k, v) :: rest, key => if k = key then some v else assocStr rest key

/-- Models `const errorCode = error.code || error.errorInfo?.code;`. -/
def firebaseErrorCode (e : Fault) : Option JsCode :=
  if e.codeTruthy then e.code else e.errorInfoCode

/-- Models `FIREBASE_ERROR_CODES[errorCode]`: JavaScript property access with a
non-string key coerces it to a string, and no numeric string is a key of the
table, so only string codes can hit an entry. -/
def fbLookup : Option JsCode → Option (Int × String)
  | some (.str s) => assocStr FIREBASE_ERROR_CODES s
  | _ => none

/-- The `formatFirebaseError` helper from `errorHandler.js`: on a table hit it returns
`new APIError(mapping.message, mapping.status, errorCode, error.message)`;
otherwise `new APIError(error.message || 'Firebase operation failed', 500,
errorCode || 'firebase-error', error.stack)`. -/
def formatFirebaseError (e : Fault) : FormattedError :=
  let errorCode := firebaseErrorCode e
  match fbLookup errorCode with
  | some (st, msg) =>
      { message := msg, statusCode := some st, code := errorCode,
        details := some (.str e.message) }
  | none =>
      { message := if e.message = "" then "Firebase operation failed" else e.message,
        statusCode := some 500,
        code := if optCodeTruthy errorCode then errorCode else some (.str "firebase-error"),
        details := e.stack.map Json.str }

/-- Models `err.param || err.path` (a falsy `param` falls through to `path`). -/
def vErrField (v : VErr) : Option String :=
  match v.param with
  | some p => if p = "" then v.path else some p
  | none => v.path

/-- Build a JSON object from possibly-undefined properties, omitting the
undefined ones as `JSON.stringify` does. -/
def optEntries (l : List (String × Option Json)) : List (String × Json) :=
  l.filterMap (fun p => p.2.map (fun v => (p.1, v)))

/-- One entry of the `errors` array in a validation error's details:
`{field: err.param || err.path, message: err.msg, value: err.value}`. -/
def vErrEntryJson (v : VErr) : Json :=
  .obj (optEntries
    [ ("field", (vErrField v).map Json.str),
      ("message", some (.str v.msg)),
      ("value", v.value) ])

/-- The `formatValidationError` helper from `errorHandler.js`. -/
def formatValidationError (e : Fault) : FormattedError :=
  if e.hasArrayFn then
    { message := "Validation failed", statusCode := some 400,
      code := some (.str "validation-error"),
      details := some (.obj [("errors", .arr (e.arrayErrors.map vErrEntryJson))]) }
  else
    { message := if e.message = "" then "Validation failed" else e.message,
      statusCode := some 400, code := some (.str "validation-error"), details := none }

/-- The `formatMongoError` helper from `errorHandler.js`: `switch (error.code)` with
strict equality, so only the numeric codes 11000 / 11001 match the cases. -/
def formatMongoError (e : Fault) : FormattedError :=
  match e.code with
  | some (.num 11000) =>
      { message := "Duplicate field value", statusCode := some 409,
        code := some (.str "duplicate-key"), details := none }
  | some (.num 11001) =>
      { message := "Duplicate key error", statusCode := some 409,
        code := some (.str "duplicate-key"), details := none }
  | _ =>
      { message := if e.message = "" then "Database operation failed" else e.message,
        statusCode := some 500, code := some (.str "database-error"), details := none }

/-- The `formatJWTError` helper from `errorHandler.js`, keyed by `error.name`. -/
def formatJWTError (e : Fault) : FormattedError :=
  match e.name with
  | some "JsonWebTokenError" =>
      { message := "Invalid token", statusCode := some 401,
        code := some (.str "jwt-error"), details := none }
  | some "TokenExpiredError" =>
      { message := "Token expired", statusCode := some 401,
        code := some (.str "jwt-error"), details := none }
  | some "NotBeforeError" =>
      { message := "Token not active yet", statusCode := some 401,
        code := some (.str "jwt-error"), details := none }
  | _ =>
      { message := "Authentication failed", statusCode := some 401,
        code := some (.str "auth-error"), details := none }

/-- The `formatMulterError` helper from `errorHandler.js`, keyed by `error.code`. -/
def formatMulterError (e : Fault) : FormattedError :=
  match e.code with
  | some (.str "LIMIT_FILE_SIZE") =>
      { message := "File too large", statusCode := some 413,
        code := some (.str "file-upload-error"), details := none }
  | some (.str "LIMIT_FILE_COUNT") =>
      { message := "Too many files", statusCode := some 413,
        code := some (.str "file-upload-error"), details := none }
  | some (.str "LIMIT_FIELD_KEY") =>
      { message := "Field name too long", statusCode := some 400,
        code := some (.str "file-upload-error"), details := none }
  | some (.str "LIMIT_FIELD_VALUE") =>
      { message := "Field value too long", statusCode := some 400,
        code := some (.str "file-upload-error"), details := none }
  | some (.str "LIMIT_FIELD_COUNT") =>
      { message := "Too many fields", statusCode := some 400,
        code := some (.str "file-upload-error"), details := none }
  | some (.str "LIMIT_UNEXPECTED_FILE") =>
      { message := "Unexpected file field", statusCode := some 400,
        code := some (.str "file-upload-error"), details := none }
  | _ =>
      { message := "File upload failed", statusCode := some 400,
        code := some (.str "file-upload-error"), details := none }

/-- Head-of-string test, modelling `String.prototype.startsWith` on the
string's characters (structurally recursive, unlike `String.startsWith`). -/
def strStartsWith (s pre : String) : Bool := pre.toList.isPrefixOf s.toList

/-- Substring test, modelling `String.prototype.includes`. -/
def strContains (s sub : String) : Bool := decide (sub.toList <:+: s.toList)

/-- Models `error.name && error.name.includes('JsonWebToken')`. -/
def nameHasJWT (e : Fault) : Bool :=
  match e.name with
  | some n => if n = "" then false else strContains n "JsonWebToken"
  | none => false

/-- Models `error.code && error.code.startsWith('LIMIT_')`; a truthy numeric code
would raise here, but every truthy code has already been routed to
`formatFirebaseError` by an earlier branch, so this branch only ever sees
falsy or absent codes. -/
def codeHasLIMIT (e : Fault) : Bool :=
  match e.code with
  | some (.str s) => if s = "" then false else strStartsWith s "LIMIT_"
  | _ => false

/-- The branches of `errorHandler` after the `'auth/'`-code test. -/
def afterAuthBranch (e : Fault) (prod : Bool) : FormattedError :=
  if e.name = some "FirebaseError" ∨ e.codeTruthy then formatFirebaseError e
  else if e.name = some "ValidationError" ∨ e.hasArrayFn then formatValidationError e
  else if e.name = some "MongoError" ∨ e.name = some "MongoServerError" then formatMongoError e
  else if nameHasJWT e then formatJWTError e
  else if codeHasLIMIT e then formatMulterError e
  else if e.name = some "CastError" then
    { message := "Invalid ID format", statusCode := some 400,
      code := some (.str "invalid-id"), details := none }
  else if e.name = some "SyntaxError" ∧ strContains e.message "JSON" then
    { message := "Invalid JSON format", statusCode := some 400,
      code := some (.str "invalid-json"), details := none }
  else
    { message := if prod then "Internal server error" else e.message,
      statusCode := some 500,
      code := some (.str "internal-server-error"),
      details := if prod then none else e.stack.map Json.str }

/-- The formatting stage of `errorHandler`: operational errors pass through
unchanged; otherwise the if-chain of formatters runs. Returns `none` for the
one input class on which the JavaScript itself raises a `TypeError`:
`error.code && error.code.startsWith('auth/')` with a truthy numeric code. -/
def normalizeFault (e : Fault) (prod : Bool) : Option FormattedError :=
  if e.isOperational then some (feOfFault e)
  else
    match e.code with
    | some (.num n) =>
        if n = 0 then some (afterAuthBranch e prod) else none
    | some (.str s) =>
        if s ≠ "" ∧ strStartsWith s "auth/" then some (formatFirebaseError e)
        else some (afterAuthBranch e prod)
    | none => some (afterAuthBranch e prod)

/-- The request fields `errorHandler` reads when building the response. -/
structure Req where
  method : String
  originalUrl : String
  headersSent : Bool
deriving Repr

/-- Models `formattedError.statusCode || 500`: an absent or zero status falls back
to 500. -/
def statusOr500 : Option Int → Int
  | some n => if n = 0 then 500 else n
  | none => 500

/-- A possibly-null code as serialized in the response. -/
def jsonOfOptCode : Option JsCode → Json
  | some (.str s) => .str s
  | some (.num n) => .num n
  | none => .null

/-- The six entries every `error` object of a response starts with. -/
def errEntriesBase (fe : FormattedError) (req : Req) (now : String) :
    List (String × Json) :=
  [ ("message", .str fe.message),
    ("code", jsonOfOptCode fe.code),
    ("statusCode", .num (statusOr500 fe.statusCode)),
    ("timestamp", .str now),
    ("path", .str req.originalUrl),
    ("method", .str req.method) ]

/-- The entries of the `error` object `errorHandler` sends: the six base
entries; in non-production mode a truthy `formattedError.details` adds a
`details` entry, and a truthy `error.stack` (the original fault's stack) adds
a `stack` entry. -/
def errEntries (fe : FormattedError) (e : Fault) (req : Req) (prod : Bool)
    (now : String) : List (String × Json) :=
  let withDetails :=
    if prod = false ∧ optJsonTruthy fe.details then
      errEntriesBase fe req now ++ [("details", fe.details.getD .null)]
    else errEntriesBase fe req now
  if prod = false ∧ optStrTruthy e.stack then
    withDetails ++ [("stack", .str (e.stack.getD ""))]
  else withDetails

/-- The response body `errorHandler` sends: a single `error` envelope. -/
def respBody (fe : FormattedError) (e : Fault) (req : Req) (prod : Bool)
    (now : String) : Json :=
  .obj [("error", .obj (errEntries fe e req prod now))]

/-- What a middleware does with the response: delegate to `next`, send a
status and JSON body, or raise a runtime `TypeError`. -/
inductive Outcome where
  | passthrough : Outcome
  | reply : Int → Json → Outcome
  | raised : Outcome
deriving Repr

/-- The `errorHandler` middleware: skip if headers were already sent, format
the error, and send `res.status(formattedError.statusCode || 500).json(...)`.
`now` stands for `new Date().toISOString()`. Logging has no effect on the
response and is not modelled. -/
def errorHandler (e : Fault) (req : Req) (prod : Bool) (now : String) : Outcome :=
  if req.headersSent then .passthrough
  else
    match normalizeFault e prod with
    | none => .raised
    | some fe => .reply (statusOr500 fe.statusCode) (respBody fe e req prod now)

/-- The `validateRequest` middleware from the firestore routes: when
`validationResult(req)` is non-empty it sends
`res.status(400).json({error: 'Validation failed', details: errors.array()})`
directly, bypassing the error boundary; otherwise it calls `next()`.
`errs` is the raw `errors.array()` value. -/
def validateRequest (errs : List Json) : Outcome :=
  if errs.isEmpty then .passthrough
  else .reply 400 (.obj [("error", .str "Validation failed"), ("details", .arr errs)])

/-- The Socket.IO room registry, modelled by its documented semantics: a
socket is either in a room or not (rooms are sets), so membership is a set of
(socket id, room) pairs kept duplicate-free by `join`. -/
structure SocketState where
  membership : List (String × String)
deriving Repr

/-- Whether socket `sid` is currently in `room`. -/
def inRoom (st : SocketState) (sid room : String) : Bool :=
  decide ((sid, room) ∈ st.membership)

/-- Models `socket.join(room)`: idempotent insertion into the room's set. -/
def joinRoom (st : SocketState) (sid room : String) : SocketState :=
  if (sid, room) ∈ st.membership then st else ⟨(sid, room) :: st.membership⟩

/-- Models `socket.leave(room)`: removes the socket from the room. -/
def leaveRoom (st : SocketState) (sid room : String) : SocketState :=
  ⟨st.membership.filter (fun p => decide (p ≠ (sid, room)))⟩

/-- A disconnecting socket leaves every room it was in. -/
def disconnectSocket (st : SocketState) (sid : String) : SocketState :=
  ⟨st.membership.filter (fun p => decide (p.1 ≠ sid))⟩

/-- Models `io.to(room).emit(...)`: the recipients are exactly the sockets in the
room at the moment of the emit. -/
def emitTo (st : SocketState) (room : String) : List String :=
  (st.membership.filter (fun p => decide (p.2 = room))).map (fun p => p.1)

/-- The room name used throughout the server for a collection's topic:
`'collection:' + collectionName`. -/
def collectionRoom (c : String) : String := "collection:" ++ c

/-- The `subscribe-to-collection` handler: `socket.join('collection:' + name)`. -/
def subscribeToCollection (st : SocketState) (sid collection : String) : SocketState :=
  joinRoom st sid (collectionRoom collection)

/-- The `unsubscribe-from-collection` handler: `socket.leave('collection:' + name)`. -/
def unsubscribeFromCollection (st : SocketState) (sid collection : String) : SocketState :=
  leaveRoom st sid (collectionRoom collection)

/-- A change event as published by the mutating firestore routes. -/
structure ChangeEvent where
  collection : String
  documentId : String
  payload : Json
deriving Repr

/-- The event payload of `document-created`:
`{collection, documentId, data}`. -/
def documentCreatedPayload (ev : ChangeEvent) : Json :=
  .obj [ ("collection", .str ev.collection),
         ("documentId", .str ev.documentId),
         ("data", ev.payload) ]

/-- Publication by the create route:
`io.to('collection:' + collectionId).emit('document-created', ...)` — the
list of socket ids that receive the event. -/
def publishDocumentCreated (st : SocketState) (ev : ChangeEvent) : List String :=
  emitTo st (collectionRoom ev.collection)

/-- Field access on a JSON object (`none` on non-objects or missing keys). -/
def Json.getField : Json → String → Option Json
  | .obj l, k => assocStr l k
  | _, _ => none

/-- The keys of a JSON object, in insertion order. -/
def Json.keys : Json → List String
  | .obj l => l.map Prod.fst
  | _ => []

/-- Whether a JSON value is an object. -/
def Json.isObject : Json → Bool
  | .obj _ => true
  | _ => false

/-- The HTTP status a middleware outcome sends, when it sends one. -/
def Outcome.statusOf : Outcome → Option Int
  | .reply s _ => some s
  | _ => none

/-- The JSON body a middleware outcome sends, when it sends one. -/
def Outcome.bodyOf : Outcome → Option Json
  | .reply _ b => some b
  | _ => none

/-- A field of the `error` object inside a response body. -/
def errEnvField (b : Json) (k : String) : Option Json :=
  (b.getField "error").bind (fun j => j.getField k)

/-- A field of the `error` object of an outcome's body. -/
def respField (o : Outcome) (k : String) : Option Json :=
  o.bodyOf.bind (fun b => errEnvField b k)

/-- The keys of the `error` object inside a response body. -/
def errObjKeys (b : Json) : List String :=
  match b.getField "error" with
  | some j => j.keys
  | none => []

/-- A falsy code never satisfies the `LIMIT_` test. -/
theorem codeHasLIMIT_of_falsy (e : Fault) (h : e.codeTruthy = false) :
    codeHasLIMIT e = false := by
  unfold codeHasLIMIT
  unfold Fault.codeTruthy optCodeTruthy at h
  match hc : e.code with
  | none => rfl
  | some (.num n) => rfl
  | some (.str s) =>
      rw [hc] at h
      simp [JsCode.truthy] at h
      simp [h]

/-- Counterexample to C1: a non-operational fault with a truthy unrecognized
string code — no recognized code prefix, name, or shape — is not sent to the
generic fallback: even in production mode it keeps its own code and its
original message via the Firebase default branch; and a truthy numeric code
makes the handler itself raise a `TypeError` instead of producing anything. -/
theorem C1_truthy_code_escapes_fallback :
    normalizeFault
      { name := none, message := "secret detail", code := some (.str "boom-code"),
        errorInfoCode := none, isOperational := false, statusCode := none,
        details := none, stack := none, hasArrayFn := false, arrayErrors := [] }
      true =
      some { message := "secret detail", statusCode := some 500,
             code := some (.str "boom-code"), details := none }
    ∧ JsCode.str "boom-code" ≠ JsCode.str "internal-server-error"
    ∧ normalizeFault
      { name := none, message := "secret detail", code := some (.num 7),
        errorInfoCode := none, isOperational := false, statusCode := none,
        details := none, stack := none, hasArrayFn := false, arrayErrors := [] }
      true = none :=
  ⟨rfl, by decide, rfl⟩

/-- C1 (amended). The generic fallback covers exactly the faults that are not
operational, have a falsy `code`, and match none of the name/shape branches:
those are formatted — without raising — into `httpStatus = 500`,
`code = "internal-server-error"`, with the generic message in production mode
and the original message otherwise. Faults with a truthy unrecognized code
take the Firebase default instead, and a truthy numeric code raises. -/
theorem C1_fallback_total (e : Fault) (prod : Bool)
    (hop : e.isOperational = false)
    (hcode : e.codeTruthy = false)
    (hfb : e.name ≠ some "FirebaseError")
    (hval : e.name ≠ some "ValidationError") (harr : e.hasArrayFn = false)
    (hm1 : e.name ≠ some "MongoError") (hm2 : e.name ≠ some "MongoServerError")
    (hjwt : nameHasJWT e = false)
    (hcast : e.name ≠ some "CastError")
    (hsyn : ¬(e.name = some "SyntaxError" ∧ strContains e.message "JSON")) :
    normalizeFault e prod =
      some { message := if prod then "Internal server error" else e.message,
             statusCode := some 500,
             code := some (.str "internal-server-error"),
             details := if prod then none else e.stack.map Json.str } := by
  have hlim := codeHasLIMIT_of_falsy e hcode
  have hbranch : afterAuthBranch e prod =
      { message := if prod then "Internal server error" else e.message,
        statusCode := some 500,
        code := some (.str "internal-server-error"),
        details := if prod then none else e.stack.map Json.str } := by
    unfold afterAuthBranch
    rw [if_neg, if_neg, if_neg, if_neg, if_neg, if_neg, if_neg]
    · exact hsyn
    · exact hcast
    · simp [hlim]
    · simp [hjwt]
    · intro h; cases h with
      | inl h => exact hm1 h
      | inr h => exact hm2 h
    · intro h; cases h with
      | inl h => exact hval h
      | inr h => rw [harr] at h; exact Bool.false_ne_true h
    · intro h; cases h with
      | inl h => exact hfb h
      | inr h => rw [hcode] at h; exact Bool.false_ne_true h
  unfold normalizeFault
  rw [if_neg (by simp [hop])]
  unfold Fault.codeTruthy optCodeTruthy at hcode
  match hc : e.code with
  | none =>
      exact congrArg some hbranch
  | some (.num n) =>
      rw [hc] at hcode
      have hn : n = 0 := by simpa [JsCode.truthy] using hcode
      subst hn
      exact congrArg some hbranch
  | some (.str s) =>
      rw [hc] at hcode
      have hs : s = "" := by simpa [JsCode.truthy] using hcode
      subst hs
      exact congrArg some hbranch

/-- Witness for C1 at a concrete unmatched fault. -/
theorem C1_fallback_total_witness :
    normalizeFault
      { name := none, message := "boom", code := none, errorInfoCode := none,
        isOperational := false, statusCode := none, details := none,
        stack := none, hasArrayFn := false, arrayErrors := [] } false =
      some { message := "boom", statusCode := some 500,
             code := some (.str "internal-server-error"), details := none } :=
  C1_fallback_total _ false rfl rfl (by decide) (by decide) rfl (by decide)
    (by decide) rfl (by decide) (by decide)

/-- Counterexample to C2: the error boundary's response body has no top-level
`success` field — at a concrete unmatched fault the body is
`{error: {message, code, statusCode, timestamp, path, method}}` only, so it is
not of the claimed shape `{success: false, error: {...}}`. -/
theorem C2_success_field_missing :
    errorHandler
      { name := none, message := "boom", code := none, errorInfoCode := none,
        isOperational := false, statusCode := none, details := none,
        stack := none, hasArrayFn := false, arrayErrors := [] }
      { method := "GET", originalUrl := "/x", headersSent := false } false "T"
      = .reply 500 (.obj
          [("error", .obj
            [ ("message", .str "boom"),
              ("code", .str "internal-server-error"),
              ("statusCode", .num 500),
              ("timestamp", .str "T"),
              ("path", .str "/x"),
              ("method", .str "GET") ])])
    ∧ Json.getField (.obj
          [("error", .obj
            [ ("message", .str "boom"),
              ("code", .str "internal-server-error"),
              ("statusCode", .num 500),
              ("timestamp", .str "T"),
              ("path", .str "/x"),
              ("method", .str "GET") ])]) "success" = none :=
  ⟨rfl, rfl⟩

/-- C2 (amended). Every response the error boundary sends is the envelope
`{error: {message, code, statusCode, timestamp, path, method, details?,
stack?}}` — with no top-level `success` field — whose `error.statusCode`
equals the HTTP status sent, whose `path`/`method`/`timestamp` come from the
request and the current time. -/
theorem C2_error_envelope (e : Fault) (req : Req) (prod : Bool) (now : String)
    (st : Int) (b : Json)
    (h : errorHandler e req prod now = .reply st b) :
    Json.keys b = ["error"]
    ∧ (b.getField "error").map Json.isObject = some true
    ∧ (errObjKeys b).take 6 = ["message", "code", "statusCode", "timestamp", "path", "method"]
    ∧ (errObjKeys b).all
        (fun k => decide (k ∈ (["message", "code", "statusCode", "timestamp",
          "path", "method", "details", "stack"] : List String))) = true
    ∧ errEnvField b "statusCode" = some (.num st)
    ∧ errEnvField b "path" = some (.str req.originalUrl)
    ∧ errEnvField b "method" = some (.str req.method)
    ∧ errEnvField b "timestamp" = some (.str now) := by
  unfold errorHandler at h
  by_cases hs : req.headersSent
  · rw [if_pos hs] at h; cases h
  · rw [if_neg hs] at h
    cases hnf : normalizeFault e prod with
    | none => rw [hnf] at h; cases h
    | some fe =>
        rw [hnf] at h
        injection h with h1 h2
        subst h1
        subst h2
        refine ⟨?_, ?_, ?_, ?_, ?_, ?_, ?_, ?_⟩ <;>
          simp only [respBody, errEntries, errEntriesBase] <;>
          split <;> (try split) <;> rfl

/-- Witness for C2 at a concrete fault and request. -/
theorem C2_error_envelope_witness :
    Json.keys (.obj
      [("error", .obj
        [ ("message", .str "boom"),
          ("code", .str "internal-server-error"),
          ("statusCode", .num 500),
          ("timestamp", .str "T"),
          ("path", .str "/x"),
          ("method", .str "GET") ])]) = ["error"]
    ∧ (Json.getField (.obj
      [("error", .obj
        [ ("message", .str "boom"),
          ("code", .str "internal-server-error"),
          ("statusCode", .num 500),
          ("timestamp", .str "T"),
          ("path", .str "/x"),
          ("method", .str "GET") ])]) "error").map Json.isObject = some true
    ∧ (errObjKeys (.obj
      [("error", .obj
        [ ("message", .str "boom"),
          ("code", .str "internal-server-error"),
          ("statusCode", .num 500),
          ("timestamp", .str "T"),
          ("path", .str "/x"),
          ("method", .str "GET") ])])).take 6
        = ["message", "code", "statusCode", "timestamp", "path", "method"]
    ∧ (errObjKeys (.obj
      [("error", .obj
        [ ("message", .str "boom"),
          ("code", .str "internal-server-error"),
          ("statusCode", .num 500),
          ("timestamp", .str "T"),
          ("path", .str "/x"),
          ("method", .str "GET") ])])).all
        (fun k => decide (k ∈ (["message", "code", "statusCode", "timestamp",
          "path", "method", "details", "stack"] : List String))) = true
    ∧ errEnvField (.obj
      [("error", .obj
        [ ("message", .str "boom"),
          ("code", .str "internal-server-error"),
          ("statusCode", .num 500),
          ("timestamp", .str "T"),
          ("path", .str "/x"),
          ("method", .str "GET") ])]) "statusCode" = some (.num 500)
    ∧ errEnvField (.obj
      [("error", .obj
        [ ("message", .str "boom"),
          ("code", .str "internal-server-error"),
          ("statusCode", .num 500),
          ("timestamp", .str "T"),
          ("path", .str "/x"),
          ("method", .str "GET") ])]) "path" = some (.str "/x")
    ∧ errEnvField (.obj
      [("error", .obj
        [ ("message", .str "boom"),
          ("code", .str "internal-server-error"),
          ("statusCode", .num 500),
          ("timestamp", .str "T"),
          ("path", .str "/x"),
          ("method", .str "GET") ])]) "method" = some (.str "GET")
    ∧ errEnvField (.obj
      [("error", .obj
        [ ("message", .str "boom"),
          ("code", .str "internal-server-error"),
          ("statusCode", .num 500),
          ("timestamp", .str "T"),
          ("path", .str "/x"),
          ("method", .str "GET") ])]) "timestamp" = some (.str "T") :=
  C2_error_envelope
    { name := none, message := "boom", code := none, errorInfoCode := none,
      isOperational := false, statusCode := none, details := none,
      stack := none, hasArrayFn := false, arrayErrors := [] }
    { method := "GET", originalUrl := "/x", headersSent := false } false "T"
    500 _ rfl

/-- Counterexample to C3: for the identity-provider fault
`auth/user-not-found` the normalizer returns the original upstream code
`"auth/user-not-found"`, not the claimed `"user-not-found"`. -/
theorem C3_code_is_upstream_code :
    (normalizeFault
      { name := none, message := "m", code := some (.str "auth/user-not-found"),
        errorInfoCode := none, isOperational := false, statusCode := none,
        details := none, stack := none, hasArrayFn := false, arrayErrors := [] }
      false).map FormattedError.code = some (some (.str "auth/user-not-found"))
    ∧ JsCode.str "auth/user-not-found" ≠ JsCode.str "user-not-found" :=
  ⟨rfl, by decide⟩

/-- C3 (amended). For every non-operational fault whose code is
`"auth/user-not-found"`, the normalizer returns `httpStatus = 404`,
message `"User not found"`, and the code field set to the original upstream
code `"auth/user-not-found"` (with the fault's message preserved in the
details). -/
theorem C3_user_not_found (e : Fault) (prod : Bool)
    (hop : e.isOperational = false)
    (hcode : e.code = some (.str "auth/user-not-found")) :
    normalizeFault e prod =
      some { message := "User not found", statusCode := some 404,
             code := some (.str "auth/user-not-found"),
             details := some (.str e.message) } := by
  unfold normalizeFault
  rw [if_neg (by simp [hop]), hcode]
  show some (formatFirebaseError e) = _
  unfold formatFirebaseError firebaseErrorCode Fault.codeTruthy
  rw [hcode]
  rfl

/-- Witness for C3 at a concrete identity-provider fault. -/
theorem C3_user_not_found_witness :
    normalizeFault
      { name := none, message := "No user record", code := some (.str "auth/user-not-found"),
        errorInfoCode := none, isOperational := false, statusCode := none,
        details := none, stack := none, hasArrayFn := false, arrayErrors := [] }
      true =
      some { message := "User not found", statusCode := some 404,
             code := some (.str "auth/user-not-found"),
             details := some (.str "No user record") } :=
  C3_user_not_found _ true rfl rfl

/-- Counterexample to C4: a document-store fault with the unrecognized code
`"mystery-code"` is normalized to `httpStatus = 500` with its code preserved
as `"mystery-code"` — not the claimed kind-level default `"internal"`. -/
theorem C4_default_keeps_code :
    normalizeFault
      { name := some "FirebaseError", message := "zap", code := some (.str "mystery-code"),
        errorInfoCode := none, isOperational := false, statusCode := none,
        details := none, stack := none, hasArrayFn := false, arrayErrors := [] }
      false =
      some { message := "zap", statusCode := some 500,
             code := some (.str "mystery-code"), details := none }
    ∧ JsCode.str "mystery-code" ≠ JsCode.str "internal" :=
  ⟨rfl, by decide⟩

/-- C4 (amended). A non-operational fault with a truthy string code matching
no entry of `FIREBASE_ERROR_CODES` degrades to the Firebase default:
`httpStatus = 500`, code preserved as the original source code, message kept
(or `"Firebase operation failed"` when empty) — the normalizer does not
throw. -/
theorem C4_unrecognized_code_default (e : Fault) (prod : Bool) (s : String)
    (hop : e.isOperational = false)
    (hcode : e.code = some (.str s))
    (hne : s ≠ "")
    (hmiss : assocStr FIREBASE_ERROR_CODES s = none) :
    normalizeFault e prod =
      some { message := if e.message = "" then "Firebase operation failed" else e.message,
             statusCode := some 500,
             code := some (.str s),
             details := e.stack.map Json.str } := by
  have h2 : fbLookup (some (JsCode.str s)) = none := hmiss
  have hfb : formatFirebaseError e =
      { message := if e.message = "" then "Firebase operation failed" else e.message,
        statusCode := some 500,
        code := some (.str s),
        details := e.stack.map Json.str } := by
    simp [formatFirebaseError, firebaseErrorCode, Fault.codeTruthy, hcode,
      optCodeTruthy, JsCode.truthy, hne, h2]
  unfold normalizeFault
  rw [if_neg (by simp [hop]), hcode]
  show (if s ≠ "" ∧ strStartsWith s "auth/" = true then some (formatFirebaseError e)
        else some (afterAuthBranch e prod)) = _
  by_cases hauth : s ≠ "" ∧ strStartsWith s "auth/" = true
  · rw [if_pos hauth, hfb]
  · rw [if_neg hauth]
    unfold afterAuthBranch
    rw [if_pos (Or.inr (by simp [Fault.codeTruthy, hcode, optCodeTruthy, JsCode.truthy, hne])), hfb]

/-- Witness for C4 at a concrete unrecognized document-store code. -/
theorem C4_unrecognized_code_default_witness :
    normalizeFault
      { name := none, message := "write failed", code := some (.str "aborted"),
        errorInfoCode := none, isOperational := false, statusCode := none,
        details := none, stack := some "trace", hasArrayFn := false, arrayErrors := [] }
      false =
      some { message := "write failed", statusCode := some 500,
             code := some (.str "aborted"),
             details := some (.str "trace") } :=
  C4_unrecognized_code_default _ false "aborted" rfl rfl (by decide) rfl

/-- Counterexample to C5: the fault `{code: "not-found"}` normalizes to code
`"not-found"`, not the claimed `"document-not-found"`. -/
theorem C5_code_is_not_found :
    normalizeFault
      { name := none, message := "m", code := some (.str "not-found"),
        errorInfoCode := none, isOperational := false, statusCode := none,
        details := none, stack := none, hasArrayFn := false, arrayErrors := [] }
      false =
      some { message := "Document not found", statusCode := some 404,
             code := some (.str "not-found"), details := some (.str "m") }
    ∧ JsCode.str "not-found" ≠ JsCode.str "document-not-found" :=
  ⟨rfl, by decide⟩

/-- C5 (amended). For every non-operational fault with code `"not-found"`
(the document-store not-found fault), the normalizer returns exactly
`httpStatus = 404`, message `"Document not found"`, and code `"not-found"`,
with the fault's message preserved in the details. -/
theorem C5_document_not_found (e : Fault) (prod : Bool)
    (hop : e.isOperational = false)
    (hcode : e.code = some (.str "not-found")) :
    normalizeFault e prod =
      some { message := "Document not found", statusCode := some 404,
             code := some (.str "not-found"),
             details := some (.str e.message) } := by
  unfold normalizeFault
  rw [if_neg (by simp [hop]), hcode]
  show some (afterAuthBranch e prod) = _
  unfold afterAuthBranch
  rw [if_pos (Or.inr (by simp [Fault.codeTruthy, hcode, optCodeTruthy, JsCode.truthy]))]
  unfold formatFirebaseError firebaseErrorCode Fault.codeTruthy
  rw [hcode]
  rfl

/-- Witness for C5 at a concrete document-store not-found fault. -/
theorem C5_document_not_found_witness :
    normalizeFault
      { name := some "FirebaseError", message := "5 NOT_FOUND", code := some (.str "not-found"),
        errorInfoCode := none, isOperational := false, statusCode := none,
        details := none, stack := none, hasArrayFn := false, arrayErrors := [] }
      true =
      some { message := "Document not found", statusCode := some 404,
             code := some (.str "not-found"),
             details := some (.str "5 NOT_FOUND") } :=
  C5_document_not_found _ true rfl rfl

/-- Every body the error boundary builds is a one-key object whose `error`
value is itself an object. -/
theorem respBody_error_object (fe : FormattedError) (e : Fault) (req : Req)
    (prod : Bool) (now : String) :
    ∃ inner, respBody fe e req prod now = .obj [("error", .obj inner)] :=
  ⟨_, rfl⟩

/-- Counterexample to C6: a failing request stopped by the validation
middleware gets the raw body `{error: "Validation failed", details: [...]}`
— `error` is a string and a second top-level key is present — which no
normalizer-built response body equals. -/
theorem C6_raw_validation_response :
    validateRequest [.obj [("msg", .str "Collection ID is required")]]
      = .reply 400 (.obj
          [ ("error", .str "Validation failed"),
            ("details", .arr [.obj [("msg", .str "Collection ID is required")]]) ])
    ∧ ∀ (fe : FormattedError) (e : Fault) (req : Req) (prod : Bool) (now : String),
        respBody fe e req prod now ≠ .obj
          [ ("error", .str "Validation failed"),
            ("details", .arr [.obj [("msg", .str "Collection ID is required")]]) ] := by
  constructor
  · rfl
  · intro fe e req prod now h
    obtain ⟨inner, hi⟩ := respBody_error_object fe e req prod now
    rw [hi] at h
    simp at h

/-- C6 (amended). Not every failing request is answered through the error
normalizer: whenever request validation fails, the `validateRequest`
middleware itself writes status 400 with the raw body
`{error: "Validation failed", details: errors.array()}`, and that body is
never equal to any body the normalizer boundary builds. -/
theorem C6_validation_bypasses_normalizer (errs : List Json) (h : errs ≠ []) :
    validateRequest errs = .reply 400 (.obj
        [("error", .str "Validation failed"), ("details", .arr errs)])
    ∧ ∀ (fe : FormattedError) (e : Fault) (req : Req) (prod : Bool) (now : String),
        respBody fe e req prod now ≠ .obj
          [("error", .str "Validation failed"), ("details", .arr errs)] := by
  constructor
  · unfold validateRequest
    rw [if_neg (by simpa [List.isEmpty_iff] using h)]
  · intro fe e req prod now hEq
    obtain ⟨inner, hi⟩ := respBody_error_object fe e req prod now
    rw [hi] at hEq
    simp at hEq

/-- Witness for C6 at a one-element validation error list. -/
theorem C6_validation_bypasses_normalizer_witness :
    validateRequest [.obj [("msg", .str "Document data must be an object")]]
      = .reply 400 (.obj
          [ ("error", .str "Validation failed"),
            ("details", .arr [.obj [("msg", .str "Document data must be an object")]]) ])
    ∧ ∀ (fe : FormattedError) (e : Fault) (req : Req) (prod : Bool) (now : String),
        respBody fe e req prod now ≠ .obj
          [ ("error", .str "Validation failed"),
            ("details", .arr [.obj [("msg", .str "Document data must be an object")]]) ] :=
  C6_validation_bypasses_normalizer _ (List.cons_ne_nil _ _)

/-- Membership in an emit's recipient list is exactly room membership at the
moment of the emit. -/
theorem mem_emitTo (st : SocketState) (room sid : String) :
    sid ∈ emitTo st room ↔ (sid, room) ∈ st.membership := by
  unfold emitTo
  rw [List.mem_map]
  constructor
  · rintro ⟨⟨a, b⟩, hp, rfl⟩
    have h2 := List.mem_filter.mp hp
    have hb : b = room := by simpa using h2.2
    subst hb
    exact h2.1
  · intro h
    exact ⟨(sid, room), List.mem_filter.mpr ⟨h, by simp⟩, rfl⟩

/-- Distinct collections use distinct rooms. -/
theorem collectionRoom_inj {a b : String} (h : collectionRoom a = collectionRoom b) :
    a = b := by
  have h2 : "collection:".data ++ a.data = "collection:".data ++ b.data := by
    have h1 := congrArg String.data h
    simpa [collectionRoom, String.data_append] using h1
  have h3 : a.data = b.data := List.append_cancel_left h2
  cases a
  cases b
  exact congrArg String.mk h3

/-- C7. Fan-out isolation: a publish for a collection delivers exactly to the
sockets that are in that collection's room at the moment of the emit, and a
socket whose every room is the room of a different collection never receives
the event. -/
theorem C7_fanout_isolation (st : SocketState) (ev : ChangeEvent) (sid : String) :
    (sid ∈ publishDocumentCreated st ev ↔ inRoom st sid (collectionRoom ev.collection) = true)
    ∧ (∀ t, (∀ r, (sid, r) ∈ st.membership → r = collectionRoom t) →
        t ≠ ev.collection → sid ∉ publishDocumentCreated st ev) := by
  constructor
  · simp [publishDocumentCreated, mem_emitTo, inRoom]
  · intro t honly hne hmem
    have hm : (sid, collectionRoom ev.collection) ∈ st.membership :=
      (mem_emitTo st (collectionRoom ev.collection) sid).mp hmem
    exact hne (collectionRoom_inj (honly _ hm)).symm

/-- Witness for C7: a socket subscribed only to `posts` does not receive a
`users` event. -/
theorem C7_fanout_isolation_witness :
    "A" ∉ publishDocumentCreated ⟨[("A", "collection:posts")]⟩
      { collection := "users", documentId := "d1", payload := .null } :=
  (C7_fanout_isolation ⟨[("A", "collection:posts")]⟩
      { collection := "users", documentId := "d1", payload := .null } "A").2 "posts"
    (fun r hr => by
      have h2 : ("A", r) = ("A", "collection:posts") := List.mem_singleton.mp hr
      have h3 : r = "collection:posts" := congrArg Prod.snd h2
      rw [h3]
      decide)
    (by decide)

/-- C8. Subscribe is idempotent, not counted: after two subscribes and one
unsubscribe of the same connection and topic, the connection is not in the
topic's room, and a publish to that topic does not deliver to it. -/
theorem C8_subscribe_idempotent (st : SocketState) (sid t docId : String) (payload : Json) :
    inRoom (unsubscribeFromCollection
        (subscribeToCollection (subscribeToCollection st sid t) sid t) sid t)
      sid (collectionRoom t) = false
    ∧ sid ∉ publishDocumentCreated
        (unsubscribeFromCollection
          (subscribeToCollection (subscribeToCollection st sid t) sid t) sid t)
        { collection := t, documentId := docId, payload := payload } := by
  have hmem : ∀ (st' : SocketState),
      (sid, collectionRoom t) ∉ (unsubscribeFromCollection st' sid t).membership := by
    intro st' h
    have h2 := (List.mem_filter.mp h).2
    simp at h2
  constructor
  · exact decide_eq_false (hmem _)
  · intro h
    exact hmem _ ((mem_emitTo _ _ _).mp h)

/-- C9. A subscription never outlives its connection: after a subscribe
followed by a disconnect, the connection is in no room at all, and a publish
to the topic it had subscribed to delivers nothing to it. -/
theorem C9_disconnect_removes_subscriptions (st : SocketState) (sid t docId : String)
    (payload : Json) :
    (∀ r, inRoom (disconnectSocket (subscribeToCollection st sid t) sid) sid r = false)
    ∧ sid ∉ publishDocumentCreated (disconnectSocket (subscribeToCollection st sid t) sid)
        { collection := t, documentId := docId, payload := payload } := by
  have hmem : ∀ (st' : SocketState) (r : String),
      (sid, r) ∉ (disconnectSocket st' sid).membership := by
    intro st' r h
    have h2 := (List.mem_filter.mp h).2
    simp at h2
  exact ⟨fun r => decide_eq_false (hmem _ r),
         fun h => hmem _ _ ((mem_emitTo _ _ _).mp h)⟩

/-- C10. The error boundary is the identity on operational errors: an error
with `isOperational` set is not re-formatted — the response status is its own
(non-zero) `statusCode`, and the body's `error.message`, `error.code` and
`error.statusCode` carry its `message`, `code` and `statusCode` unchanged. -/
theorem C10_operational_identity (e : Fault) (req : Req) (prod : Bool) (now : String)
    (s : Int)
    (hop : e.isOperational = true)
    (hsent : req.headersSent = false)
    (hst : e.statusCode = some s)
    (hnz : s ≠ 0) :
    (errorHandler e req prod now).statusOf = some s
    ∧ respField (errorHandler e req prod now) "message" = some (.str e.message)
    ∧ respField (errorHandler e req prod now) "code" = some (jsonOfOptCode e.code)
    ∧ respField (errorHandler e req prod now) "statusCode" = some (.num s) := by
  have hnorm : normalizeFault e prod = some (feOfFault e) := by
    unfold normalizeFault
    rw [if_pos (by simp [hop])]
  have h500 : statusOr500 (feOfFault e).statusCode = s := by
    simp [feOfFault, hst, statusOr500, hnz]
  have hout : errorHandler e req prod now
      = .reply s (respBody (feOfFault e) e req prod now) := by
    unfold errorHandler
    rw [if_neg (by simp [hsent]), hnorm]
    show Outcome.reply (statusOr500 (feOfFault e).statusCode)
        (respBody (feOfFault e) e req prod now) = _
    rw [h500]
  have hEq : ∀ k, respField (Outcome.reply s (respBody (feOfFault e) e req prod now)) k
      = assocStr (errEntries (feOfFault e) e req prod now) k := fun k => rfl
  refine ⟨by rw [hout]; rfl, ?_, ?_, ?_⟩
  · rw [hout, hEq]
    simp only [errEntries, errEntriesBase]
    split <;> split <;> rfl
  · rw [hout, hEq]
    simp only [errEntries, errEntriesBase]
    split <;> split <;> rfl
  · rw [hout, hEq]
    simp only [errEntries, errEntriesBase]
    split <;> split <;> (rw [h500]; rfl)

/-- Witness for C10 at a concrete `APIError` (operational) fault. -/
theorem C10_operational_identity_witness :
    (errorHandler
      { name := some "APIError", message := "Failed to list collections",
        code := some (.str "firestore-list-error"), errorInfoCode := none,
        isOperational := true, statusCode := some 500,
        details := none, stack := none, hasArrayFn := false, arrayErrors := [] }
      { method := "GET", originalUrl := "/api/v1/firestore/collections",
        headersSent := false } false "T").statusOf = some 500
    ∧ respField (errorHandler
      { name := some "APIError", message := "Failed to list collections",
        code := some (.str "firestore-list-error"), errorInfoCode := none,
        isOperational := true, statusCode := some 500,
        details := none, stack := none, hasArrayFn := false, arrayErrors := [] }
      { method := "GET", originalUrl := "/api/v1/firestore/collections",
        headersSent := false } false "T") "message"
        = some (.str "Failed to list collections")
    ∧ respField (errorHandler
      { name := some "APIError", message := "Failed to list collections",
        code := some (.str "firestore-list-error"), errorInfoCode := none,
        isOperational := true, statusCode := some 500,
        details := none, stack := none, hasArrayFn := false, arrayErrors := [] }
      { method := "GET", originalUrl := "/api/v1/firestore/collections",
        headersSent := false } false "T") "code" = some (.str "firestore-list-error")
    ∧ respField (errorHandler
      { name := some "APIError", message := "Failed to list collections",
        code := some (.str "firestore-list-error"), errorInfoCode := none,
        isOperational := true, statusCode := some 500,
        details := none, stack := none, hasArrayFn := false, arrayErrors := [] }
      { method := "GET", originalUrl := "/api/v1/firestore/collections",
        headersSent := false } false "T") "statusCode" = some (.num 500) :=
  C10_operational_identity _ _ false "T" 500 rfl rfl rfl (by decide)

/-- Witness for C8 at a concrete connection and topic. -/
theorem C8_subscribe_idempotent_witness :
    inRoom (unsubscribeFromCollection
        (subscribeToCollection (subscribeToCollection ⟨[]⟩ "A" "messages") "A" "messages")
        "A" "messages")
      "A" (collectionRoom "messages") = false
    ∧ "A" ∉ publishDocumentCreated
        (unsubscribeFromCollection
          (subscribeToCollection (subscribeToCollection ⟨[]⟩ "A" "messages") "A" "messages")
          "A" "messages")
        { collection := "messages", documentId := "m1", payload := .null } :=
  C8_subscribe_idempotent ⟨[]⟩ "A" "messages" "m1" .null

/-- Witness for C9 at a concrete connection and topic. -/
theorem C9_disconnect_removes_subscriptions_witness :
    (∀ r, inRoom (disconnectSocket (subscribeToCollection ⟨[]⟩ "A" "messages") "A") "A" r = false)
    ∧ "A" ∉ publishDocumentCreated
        (disconnectSocket (subscribeToCollection ⟨[]⟩ "A" "messages") "A")
        { collection := "messages", documentId := "m1", payload := .null } :=
  C9_disconnect_removes_subscriptions ⟨[]⟩ "A" "messages" "m1" .null
